import Mathlib

/-!
Shallow embedding of the image-proxy cache subsystem of the
torrust-index-backend repository (src/src/cache/image/manager.rs),
together with theorems settling the frozen claims about it.

Modelling conventions:
- `usize` values are `Nat`; `usize::saturating_add` saturates at `2^64 - 1`.
- Wall-clock reads (`now_in_secs`) are threaded explicitly: every operation
  that reads the clock takes a `now : Nat` argument (seconds since the UNIX
  epoch).  `u64` subtraction `now - date_start_secs` is modelled with `Nat`
  subtraction under the spec's monotone-clock assumption.
- The `HashMap<i64, ImageCacheQuota>` is an association list with unique
  keys, looked up and replaced exactly as the code does.
- The network is an environment parameter: each `get_image_by_url` call is
  given the `HttpResponse` that the single outbound GET would observe, and
  the call's trace records which GETs were issued and the discarded results
  of quota charges, so that "no network call" and "swallowed charge
  failure" are observable propositions.
-/

deriving instance DecidableEq for Except

namespace TorrustImageCache

/-- `usize::MAX` on a 64-bit target. -/
def USIZE_MAX : Nat := 2 ^ 64 - 1

/-- `usize::saturating_add`. -/
def satAdd (a b : Nat) : Nat := min (a + b) USIZE_MAX

/-- The error enum of src/src/cache/image/manager.rs. -/
inductive Error where
  | urlIsUnreachable
  | urlIsNotAnImage
  | imageTooBig
  | userQuotaMet
  | unauthenticated
deriving DecidableEq, Repr

/-- `SystemTime::now().duration_since(UNIX_EPOCH)`: the clock is an `Int`
(seconds relative to the epoch, negative = before it); `duration_since`
fails exactly when the clock is before the epoch. -/
def duration_since_unix_epoch (t : Int) : Except Unit Nat :=
  if 0 ≤ t then .ok t.toNat else .error ()

/-- `now_in_secs` from manager.rs: returns the elapsed whole seconds, and
panics ("SystemTime before UNIX EPOCH!") when `duration_since` fails.
The panic is modelled as `none`. -/
def now_in_secs (t : Int) : Option Nat :=
  match duration_since_unix_epoch t with
  | .ok n => some n
  | .error _ => none

/-- `ImageCacheQuota` from manager.rs. -/
structure ImageCacheQuota where
  user_id : Int
  usage : Nat
  max_usage : Nat
  date_start_secs : Nat
  period_secs : Nat
deriving DecidableEq, Repr

namespace ImageCacheQuota

/-- `ImageCacheQuota::new`: usage 0, window start = now. -/
def new (now : Nat) (user_id : Int) (max_usage : Nat) (period_secs : Nat) :
    ImageCacheQuota :=
  { user_id := user_id, usage := 0, max_usage := max_usage,
    date_start_secs := now, period_secs := period_secs }

/-- `ImageCacheQuota::is_reached`: `usage >= max_usage`. -/
def is_reached (q : ImageCacheQuota) : Bool :=
  q.usage ≥ q.max_usage

/-- `ImageCacheQuota::reset`: usage 0, window start = now. -/
def reset (now : Nat) (q : ImageCacheQuota) : ImageCacheQuota :=
  { q with usage := 0, date_start_secs := now }

/-- `ImageCacheQuota::add_usage`: reset the window if it elapsed, then fail
if the quota is already reached, else saturating-add the amount.  Returns
the `Result<(), ()>` together with the mutated quota. -/
def add_usage (now : Nat) (q : ImageCacheQuota) (amount : Nat) :
    Except Unit Unit × ImageCacheQuota :=
  let q1 := if now - q.date_start_secs > q.period_secs then q.reset now else q
  if q1.is_reached then
    (.error (), q1)
  else
    (.ok (), { q1 with usage := satAdd q1.usage amount })

end ImageCacheQuota

/-- Modelled from the spec: the `BytesCache` source file
(src/cache/cache.rs) is not under src/; per the spec it is a bounded
key/value store with a total-capacity budget, a per-entry size limit
(`entry_size_limit ≤ capacity`, both nonzero, enforced at construction) and
FIFO eviction by insertion order.  Entries are kept oldest-first. -/
structure BytesCache where
  capacity : Nat
  entry_size_limit : Nat
  entries : List (String × List Nat)
deriving DecidableEq, Repr

/-- Total number of payload bytes held by a list of entries. -/
def entriesSize (l : List (String × List Nat)) : Nat :=
  (l.map (fun e => e.2.length)).sum

namespace BytesCache

/-- Modelled from the spec: `construct(capacity, entry_size_limit)` fails
if `entry_size_limit > capacity` or either is zero. -/
def with_capacity_and_entry_size_limit (capacity entry_size_limit : Nat) :
    Except Unit BytesCache :=
  if entry_size_limit > capacity ∨ capacity = 0 ∨ entry_size_limit = 0 then
    .error ()
  else
    .ok { capacity := capacity, entry_size_limit := entry_size_limit, entries := [] }

/-- Modelled from the spec: `lookup(key)` is a pure read returning an
optional copy of the payload; it never mutates eviction state. -/
def get (c : BytesCache) (url : String) : Option (List Nat) :=
  (c.entries.find? (fun e => e.1 == url)).map (fun e => e.2)

/-- Evict oldest-first until the new payload fits in the capacity. -/
def evictUntilFits : List (String × List Nat) → Nat → Nat → List (String × List Nat)
  | [], _, _ => []
  | e :: rest, len, cap =>
    if entriesSize (e :: rest) + len > cap then evictUntilFits rest len cap
    else e :: rest

/-- Modelled from the spec: `insert(key, payload)` fails with EntryTooLarge
if the payload exceeds the per-entry limit; otherwise it replaces any
existing entry for the key and evicts oldest-first until
`total_size + len ≤ capacity`, then appends the entry (newest last). -/
def set (c : BytesCache) (url : String) (bytes : List Nat) :
    Except Unit BytesCache :=
  if bytes.length > c.entry_size_limit then .error ()
  else
    let without := c.entries.filter (fun e => e.1 ≠ url)
    let kept := evictUntilFits without bytes.length c.capacity
    .ok { c with entries := kept ++ [(url, bytes)] }

end BytesCache

/-- The image-cache slice of the live configuration (`settings.image_cache`),
read fresh on every call. -/
structure ImageCacheSettings where
  capacity : Nat
  entry_size_limit : Nat
  max_request_timeout_ms : Nat
  user_quota_bytes : Nat
  user_quota_period_seconds : Nat
deriving DecidableEq, Repr

/-- `UserCompact`: only its `user_id` is consumed by this subsystem. -/
structure UserCompact where
  user_id : Int
deriving DecidableEq, Repr

/-- `UserQuotas = HashMap<i64, ImageCacheQuota>`, modelled as an
association list with unique keys. -/
abbrev UserQuotas : Type := List (Int × ImageCacheQuota)

/-- `HashMap::get`. -/
def quotasGet (m : UserQuotas) (k : Int) : Option ImageCacheQuota :=
  (List.find? (fun e => e.1 == k) m).map (fun e => e.2)

/-- `HashMap::insert` (replace any existing binding, key stays unique). -/
def quotasInsert (m : UserQuotas) (k : Int) (v : ImageCacheQuota) : UserQuotas :=
  List.filter (fun e => e.1 ≠ k) m ++ [(k, v)]

/-- The mutable state of `ImageCacheService`: the byte cache, the per-user
quota registry and the live configuration. -/
structure ServiceState where
  image_cache : BytesCache
  user_quotas : UserQuotas
  settings : ImageCacheSettings
deriving DecidableEq, Repr

/-- What the single outbound GET of a cache miss observes:
either the send (transport or timeout) fails, or a response arrives with an
optional `Content-Type` header and a body read that may itself fail. -/
inductive HttpResponse where
  | sendFailure
  | response (contentType : Option String) (body : Except Unit (List Nat))
deriving DecidableEq, Repr

/-- `ImageCacheService::get_image_from_url_as_bytes`: send the GET
(failure ↦ UrlIsUnreachable), require a `Content-Type` of exactly
`image/jpeg` or `image/png` (missing or other ↦ UrlIsNotAnImage), then read
the body (failure ↦ UrlIsNotAnImage). -/
def get_image_from_url_as_bytes (resp : HttpResponse) : Except Error (List Nat) :=
  match resp with
  | .sendFailure => .error .urlIsUnreachable
  | .response contentType body =>
    match contentType with
    | none => .error .urlIsNotAnImage
    | some ct =>
      if ct ≠ "image/jpeg" ∧ ct ≠ "image/png" then .error .urlIsNotAnImage
      else
        match body with
        | .ok bytes => .ok bytes
        | .error _ => .error .urlIsNotAnImage

/-- `ImageCacheService::check_user_quota`: look up the caller's existing
quota; if present and reached, fail UserQuotaMet.  Pure read. -/
def check_user_quota (s : ServiceState) (user : UserCompact) : Except Error Unit :=
  match quotasGet s.user_quotas user.user_id with
  | some quota => if quota.is_reached then .error .userQuotaMet else .ok ()
  | none => .ok ()

/-- `ImageCacheService::check_image_size`: reject payloads larger than the
configured entry size limit.  Pure read. -/
def check_image_size (s : ServiceState) (image_bytes : List Nat) : Except Error Unit :=
  if image_bytes.length > s.settings.entry_size_limit then .error .imageTooBig
  else .ok ()

/-- `ImageCacheService::update_image_cache`: insert into the byte cache;
an insert failure is mapped to `Error::ImageTooBig`. -/
def update_image_cache (s : ServiceState) (url : String) (image_bytes : List Nat) :
    Except Error ServiceState :=
  match s.image_cache.set url image_bytes with
  | .ok c => .ok { s with image_cache := c }
  | .error _ => .error .imageTooBig

/-- `ImageCacheService::update_user_quota`: clone the caller's quota (or
lazily create one from the live configuration), call `add_usage` and
discard its result (`let _ = quota.add_usage(amount)`), then write the
quota back.  Returns the new state together with the discarded
`add_usage` outcome (the Rust function itself always returns `Ok(())`). -/
def update_user_quota (now : Nat) (s : ServiceState) (user : UserCompact)
    (amount : Nat) : ServiceState × Except Unit Unit :=
  let quota :=
    (quotasGet s.user_quotas user.user_id).getD
      (ImageCacheQuota.new now user.user_id s.settings.user_quota_bytes
        s.settings.user_quota_period_seconds)
  let charged := quota.add_usage now amount
  ({ s with user_quotas := quotasInsert s.user_quotas user.user_id charged.2 },
   charged.1)

/-- Observable side effects of one `get_image_by_url` call: the URLs for
which an outbound GET was issued, and the discarded outcomes of quota
charges. -/
structure Trace where
  fetched : List String
  charge_outcomes : List (Except Unit Unit)
deriving DecidableEq, Repr

/-- Result of one `get_image_by_url` call: the value returned to the
caller, the service state afterwards, and the observable trace. -/
structure GetImageResult where
  result : Except Error (List Nat)
  state : ServiceState
  trace : Trace
deriving DecidableEq, Repr

/-- `ImageCacheService::get_image_by_url`, sequential semantics: cache
probe, authorization gate, quota pre-check, fetch, content + size
validation, cache population (its failure propagates via `?` as
ImageTooBig), quota charge (its failure is discarded), return the bytes.
`resp` is the response the single outbound GET would observe; `now` is the
wall clock during the call. -/
def get_image_by_url (now : Nat) (resp : HttpResponse) (s : ServiceState)
    (url : String) (opt_user : Option UserCompact) : GetImageResult :=
  match s.image_cache.get url with
  | some bytes => ⟨.ok bytes, s, ⟨[], []⟩⟩
  | none =>
    match opt_user with
    | none => ⟨.error .unauthenticated, s, ⟨[], []⟩⟩
    | some user =>
      match check_user_quota s user with
      | .error e => ⟨.error e, s, ⟨[], []⟩⟩
      | .ok _ =>
        match get_image_from_url_as_bytes resp with
        | .error e => ⟨.error e, s, ⟨[url], []⟩⟩
        | .ok image_bytes =>
          match check_image_size s image_bytes with
          | .error e => ⟨.error e, s, ⟨[url], []⟩⟩
          | .ok _ =>
            match update_image_cache s url image_bytes with
            | .error e => ⟨.error e, s, ⟨[url], []⟩⟩
            | .ok s1 =>
              let charged := update_user_quota now s1 user image_bytes.length
              ⟨.ok image_bytes, charged.1, ⟨[url], [charged.2]⟩⟩

/-! ## Concrete states and inputs used by counterexamples and witnesses -/

/-- State holding one user whose quota is exactly reached
(usage 1000 of max 1000, window started at second 0). -/
def reachedQuotaState : ServiceState :=
  ⟨⟨1000, 100, []⟩, [(1, ⟨1, 1000, 1000, 0, 3600⟩)], ⟨1000, 100, 1000, 1000, 3600⟩⟩

/-- A state on which miss-path fetches proceed: empty cache (limit 100,
capacity 1000), no quotas, quota budget 1000 per 3600 s. -/
def okState : ServiceState := ⟨⟨1000, 100, []⟩, [], ⟨1000, 100, 1000, 1000, 3600⟩⟩

/-- An 80-byte payload. -/
def pay80 : List Nat := List.replicate 80 0

/-- Successful PNG response carrying the 80-byte body. -/
def respPay80 : HttpResponse := .response (some "image/png") (.ok pay80)

/-- A state whose LIVE configuration admits 80-byte entries
(entry_size_limit 100) while the byte cache itself still carries the
smaller per-entry limit 50 it was constructed with — reachable because the
configuration is hot-reloadable but the cache keeps its construction-time
limit. -/
def hotReloadState : ServiceState := ⟨⟨1000, 50, []⟩, [], ⟨1000, 100, 1000, 1000, 3600⟩⟩

/-- `okState` after the 80-byte entry for "http://a" was inserted. -/
def insertedState : ServiceState :=
  ⟨⟨1000, 100, [("http://a", pay80)]⟩, [], ⟨1000, 100, 1000, 1000, 3600⟩⟩

/-- Start state of the spec's three-fetch scenario: quota budget 1000
bytes per 3600-second window, empty cache of capacity 10000 with
1000-byte entry limit, no quotas yet. -/
def threeFetchStart : ServiceState :=
  ⟨⟨10000, 1000, []⟩, [], ⟨10000, 1000, 1000, 1000, 3600⟩⟩

/-- A 400-byte payload. -/
def pay400 : List Nat := List.replicate 400 0

/-- Successful PNG response carrying the 400-byte body. -/
def resp400 : HttpResponse := .response (some "image/png") (.ok pay400)

/-- First scenario fetch: user 1 misses on "http://a" at second 0. -/
def firstFetch : GetImageResult :=
  get_image_by_url 0 resp400 threeFetchStart "http://a" (some ⟨1⟩)

/-- Second scenario fetch: user 1 misses on "http://b" at second 10. -/
def secondFetch : GetImageResult :=
  get_image_by_url 10 resp400 firstFetch.state "http://b" (some ⟨1⟩)

/-- Third scenario fetch: user 1 misses on "http://c" at second 20. -/
def thirdFetch : GetImageResult :=
  get_image_by_url 20 resp400 secondFetch.state "http://c" (some ⟨1⟩)

/-- A state whose live configuration sets the user quota budget to zero
bytes, with no quota records yet. -/
def zeroQuotaState : ServiceState := ⟨⟨1000, 100, []⟩, [], ⟨1000, 100, 1000, 0, 3600⟩⟩

/-! ## Theorems settling the claims -/

/-- Claim C1, counterexample: starting from a fresh quota with
`max_usage = 1000` and `period = 3600`, charging 800 and then 400 within
the window both SUCCEED, leaving `usage = 1200 > max_usage = 1000`; so a
successful charge can leave `usage` strictly greater than `max_usage`,
refuting the claimed invariant `usage ≤ max_usage`. -/
theorem C1_quota_invariant_cex :
    (((ImageCacheQuota.new 0 1 1000 3600).add_usage 0 800).2.add_usage 0 400).1 = .ok () ∧
    (((ImageCacheQuota.new 0 1 1000 3600).add_usage 0 800).2.add_usage 0 400).2.usage = 1200 ∧
    (((ImageCacheQuota.new 0 1 1000 3600).add_usage 0 800).2.add_usage 0 400).2.max_usage = 1000 ∧
    ¬ (((ImageCacheQuota.new 0 1 1000 3600).add_usage 0 800).2.add_usage 0 400).2.usage
        ≤ (((ImageCacheQuota.new 0 1 1000 3600).add_usage 0 800).2.add_usage 0 400).2.max_usage := by
  decide

/-- Claim C1, amended: `charge` checks `reached` BEFORE adding, so a
successful `charge(amount)` may overshoot: it leaves
`usage ≤ max_usage - 1 + amount` (exceeding `max_usage` by at most
`amount - 1`) rather than `usage ≤ max_usage`; a rejected charge of a
quota with `max_usage > 0` leaves the quota entirely unchanged; and
`construct` gives `usage = 0`. -/
theorem C1_quota_overshoot_bound (now : Nat) (q : ImageCacheQuota) (amount : Nat) :
    ((q.add_usage now amount).1 = .ok () →
      (q.add_usage now amount).2.usage ≤ q.max_usage - 1 + amount) ∧
    (0 < q.max_usage → (q.add_usage now amount).1 = .error () →
      (q.add_usage now amount).2 = q) ∧
    (∀ uid mu p, (ImageCacheQuota.new now uid mu p).usage = 0 ∧
      (ImageCacheQuota.new now uid mu p).max_usage = mu) := by
  refine ⟨?_, ?_, fun uid mu p => ⟨rfl, rfl⟩⟩
  · intro hok
    unfold ImageCacheQuota.add_usage at hok ⊢
    by_cases hreset : now - q.date_start_secs > q.period_secs
    · simp only [hreset, if_true] at hok ⊢
      by_cases hr : (q.reset now).is_reached
      · simp [hr] at hok
      · simp only [hr, Bool.false_eq_true, if_false] at hok ⊢
        simp only [ImageCacheQuota.is_reached, ImageCacheQuota.reset,
          ge_iff_le, decide_eq_true_eq, Nat.le_zero] at hr ⊢
        simp [satAdd, USIZE_MAX]
    · simp only [hreset, if_false] at hok ⊢
      by_cases hr : q.is_reached
      · simp [hr] at hok
      · simp only [hr, Bool.false_eq_true, if_false] at hok ⊢
        simp only [ImageCacheQuota.is_reached, ge_iff_le, decide_eq_true_eq] at hr
        simp only [satAdd, USIZE_MAX]
        omega
  · intro hpos herr
    unfold ImageCacheQuota.add_usage at herr ⊢
    by_cases hreset : now - q.date_start_secs > q.period_secs
    · simp only [hreset, if_true] at herr ⊢
      by_cases hr : (q.reset now).is_reached
      · simp only [ImageCacheQuota.is_reached, ImageCacheQuota.reset,
          ge_iff_le, decide_eq_true_eq, Nat.le_zero] at hr
        omega
      · simp [hr] at herr
    · simp only [hreset, if_false] at herr ⊢
      by_cases hr : q.is_reached
      · simp [hr]
      · simp [hr] at herr

/-- Claim C1, witness for the amended theorem: at usage 800 of max 1000 a
400-byte charge stays within `max_usage - 1 + amount = 1399`, and a
rejected charge at usage 1000 of max 1000 leaves the quota unchanged. -/
theorem C1_quota_overshoot_bound_witness :
    ((⟨1, 800, 1000, 0, 3600⟩ : ImageCacheQuota).add_usage 10 400).2.usage ≤ 1000 - 1 + 400 ∧
    ((⟨1, 1000, 1000, 0, 3600⟩ : ImageCacheQuota).add_usage 10 400).2
      = (⟨1, 1000, 1000, 0, 3600⟩ : ImageCacheQuota) :=
  ⟨(C1_quota_overshoot_bound 10 ⟨1, 800, 1000, 0, 3600⟩ 400).1 (by decide),
   (C1_quota_overshoot_bound 10 ⟨1, 1000, 1000, 0, 3600⟩ 400).2.1 (by decide) (by decide)⟩

/-- Claim C4: for every url present in the cache, `get_image_by_url`
returns the cached payload for every caller identity (including an absent
one), issues no outbound GET, performs no quota charge, and leaves the
whole service state (cache, quota registry, every user's usage)
unchanged. -/
theorem C4_cache_hit_free (now : Nat) (resp : HttpResponse) (s : ServiceState)
    (url : String) (bytes : List Nat) (opt_user : Option UserCompact)
    (hhit : s.image_cache.get url = some bytes) :
    get_image_by_url now resp s url opt_user = ⟨.ok bytes, s, ⟨[], []⟩⟩ := by
  unfold get_image_by_url
  rw [hhit]

/-- Claim C4, witness: a one-entry cache serves its entry to an
unauthenticated caller with no state change and no fetch. -/
theorem C4_cache_hit_free_witness :
    get_image_by_url 0 .sendFailure
        ⟨⟨1000, 100, [("http://a", [7, 7])]⟩, [], ⟨1000, 100, 1000, 1000, 3600⟩⟩
        "http://a" none
      = ⟨.ok [7, 7], ⟨⟨1000, 100, [("http://a", [7, 7])]⟩, [], ⟨1000, 100, 1000, 1000, 3600⟩⟩,
         ⟨[], []⟩⟩ :=
  C4_cache_hit_free 0 .sendFailure
    ⟨⟨1000, 100, [("http://a", [7, 7])]⟩, [], ⟨1000, 100, 1000, 1000, 3600⟩⟩
    "http://a" [7, 7] none (by decide)

/-- Claim C5: for every url not present in the cache, an unauthenticated
`get_image_by_url` fails with Unauthenticated, issues no outbound GET, and
mutates no cache or quota state. -/
theorem C5_unauthenticated_miss (now : Nat) (resp : HttpResponse) (s : ServiceState)
    (url : String) (hmiss : s.image_cache.get url = none) :
    get_image_by_url now resp s url none = ⟨.error .unauthenticated, s, ⟨[], []⟩⟩ := by
  unfold get_image_by_url
  rw [hmiss]

/-- Claim C5, witness: an unauthenticated miss on an empty cache. -/
theorem C5_unauthenticated_miss_witness :
    get_image_by_url 0 .sendFailure ⟨⟨1000, 100, []⟩, [], ⟨1000, 100, 1000, 1000, 3600⟩⟩
        "http://a" none
      = ⟨.error .unauthenticated, ⟨⟨1000, 100, []⟩, [], ⟨1000, 100, 1000, 1000, 3600⟩⟩,
         ⟨[], []⟩⟩ :=
  C5_unauthenticated_miss 0 .sendFailure
    ⟨⟨1000, 100, []⟩, [], ⟨1000, 100, 1000, 1000, 3600⟩⟩ "http://a" (by decide)

/-- Claim C8: a wall clock before the UNIX epoch makes `now_in_secs` panic
(modelled as `none`, process-fatal, not a recoverable error value — the
Rust function returns a plain `u64` and has no error channel); at or after
the epoch it returns the elapsed whole seconds and does not abort. -/
theorem C8_clock_before_epoch_fatal (t : Int) :
    (t < 0 → now_in_secs t = none) ∧ (0 ≤ t → now_in_secs t = some t.toNat) := by
  constructor
  · intro h
    simp [now_in_secs, duration_since_unix_epoch, not_le.mpr h]
  · intro h
    simp [now_in_secs, duration_since_unix_epoch, h]

/-- Claim C8, witness: the clock 5 seconds before the epoch panics; the
clock 7 seconds after it yields 7. -/
theorem C8_clock_before_epoch_fatal_witness :
    now_in_secs (-5) = none ∧ now_in_secs 7 = some ((7 : Int).toNat) :=
  ⟨(C8_clock_before_epoch_fatal (-5)).1 (by decide),
   (C8_clock_before_epoch_fatal 7).2 (by decide)⟩

/-- Claim C7: on a cache miss by an authenticated caller whose existing
quota has `usage ≥ max_usage`, `get_image_by_url` fails with
UserQuotaMet, issues no outbound GET (the failure precedes all network
I/O), and mutates nothing: in particular the pre-check neither resets the
quota window nor changes the quota. -/
theorem C7_quota_precheck_rejects (now : Nat) (resp : HttpResponse) (s : ServiceState)
    (url : String) (user : UserCompact) (q : ImageCacheQuota)
    (hmiss : s.image_cache.get url = none)
    (hq : quotasGet s.user_quotas user.user_id = some q)
    (hreached : q.usage ≥ q.max_usage) :
    get_image_by_url now resp s url (some user) = ⟨.error .userQuotaMet, s, ⟨[], []⟩⟩ := by
  have hcq : check_user_quota s user = .error .userQuotaMet := by
    unfold check_user_quota
    rw [hq]
    simp [ImageCacheQuota.is_reached, hreached]
  simp [get_image_by_url, hmiss, hcq]

/-- Claim C7, witness: a reached user is rejected before any fetch. -/
theorem C7_quota_precheck_rejects_witness :
    get_image_by_url 5 .sendFailure reachedQuotaState "http://a" (some ⟨1⟩)
      = ⟨.error .userQuotaMet, reachedQuotaState, ⟨[], []⟩⟩ :=
  C7_quota_precheck_rejects 5 .sendFailure reachedQuotaState "http://a" ⟨1⟩
    ⟨1, 1000, 1000, 0, 3600⟩ (by decide) (by decide) (by decide)

/-- Claim C9: once a user's stored quota has `usage ≥ max_usage`, every
later cache-miss call by that user fails with UserQuotaMet and leaves the
state (hence the quota) unchanged for EVERY later clock value — even one
strictly beyond the end of the quota window — because the window reset
lives only inside `add_usage`, which the pre-check makes unreachable. -/
theorem C9_reached_quota_never_resets (now : Nat) (resp : HttpResponse) (s : ServiceState)
    (url : String) (user : UserCompact) (q : ImageCacheQuota)
    (hmiss : s.image_cache.get url = none)
    (hq : quotasGet s.user_quotas user.user_id = some q)
    (hreached : q.usage ≥ q.max_usage)
    (_hlate : q.date_start_secs + q.period_secs < now) :
    get_image_by_url now resp s url (some user) = ⟨.error .userQuotaMet, s, ⟨[], []⟩⟩ := by
  have hcq : check_user_quota s user = .error .userQuotaMet := by
    unfold check_user_quota
    rw [hq]
    simp [ImageCacheQuota.is_reached, hreached]
  simp [get_image_by_url, hmiss, hcq]

/-- Claim C9, witness: a full year after the 3600-second window started,
the reached user is still rejected and the quota still not reset. -/
theorem C9_reached_quota_never_resets_witness :
    get_image_by_url 31536000 .sendFailure reachedQuotaState "http://a" (some ⟨1⟩)
      = ⟨.error .userQuotaMet, reachedQuotaState, ⟨[], []⟩⟩ :=
  C9_reached_quota_never_resets 31536000 .sendFailure reachedQuotaState "http://a" ⟨1⟩
    ⟨1, 1000, 1000, 0, 3600⟩ (by decide) (by decide) (by decide) (by decide)

/-- Claim C6, counterexample: a fetch whose send succeeds with a valid
`image/png` content type but whose BODY read fails is reported as
UrlIsNotAnImage, not as the claimed UrlIsUnreachable. -/
theorem C6_body_failure_cex :
    get_image_from_url_as_bytes (.response (some "image/png") (.error ()))
      = .error .urlIsNotAnImage ∧
    Error.urlIsNotAnImage ≠ Error.urlIsUnreachable := by
  decide

/-- Claim C6, amended: each fetch step issues exactly one outbound GET
(no retry) whatever the response; a transport or timeout failure of the
SEND maps to UrlIsUnreachable; but a failure while receiving the response
body maps to UrlIsNotAnImage. -/
theorem C6_single_fetch_error_map (now : Nat) (resp : HttpResponse) (s : ServiceState)
    (url : String) (user : UserCompact)
    (hmiss : s.image_cache.get url = none)
    (hpre : check_user_quota s user = .ok ()) :
    (get_image_by_url now resp s url (some user)).trace.fetched = [url] ∧
    get_image_from_url_as_bytes .sendFailure = .error .urlIsUnreachable ∧
    ∀ ct, get_image_from_url_as_bytes (.response ct (.error ()))
      = .error .urlIsNotAnImage := by
  refine ⟨?_, rfl, ?_⟩
  · simp only [get_image_by_url, hmiss, hpre]
    cases hf : get_image_from_url_as_bytes resp with
    | error e => rfl
    | ok image_bytes =>
      cases hs : check_image_size s image_bytes with
      | error e => simp [hs]
      | ok u =>
        cases hi : update_image_cache s url image_bytes with
        | error e => simp [hs, hi]
        | ok s1 => simp [hs, hi]
  · intro ct
    cases ct with
    | none => rfl
    | some c =>
      unfold get_image_from_url_as_bytes
      by_cases h : c ≠ "image/jpeg" ∧ c ≠ "image/png"
      · simp [h]
      · simp [h]

/-- Claim C6, witness: a transport failure on a miss issues exactly the
one GET for the requested url. -/
theorem C6_single_fetch_error_map_witness :
    (get_image_by_url 0 .sendFailure okState "http://a" (some ⟨1⟩)).trace.fetched
      = ["http://a"] :=
  (C6_single_fetch_error_map 0 .sendFailure okState "http://a" ⟨1⟩
    (by decide) (by decide)).1

/-- Claim C3, counterexample: a call whose fetch succeeds and whose size
validation passes (it reaches the cache-population step) but whose cache
insert fails does NOT return the fetched payload: the insert failure is
surfaced as ImageTooBig via the `?` operator, and the quota-charge step is
never reached. -/
theorem C3_insert_failure_surfaced_cex :
    get_image_from_url_as_bytes respPay80 = .ok pay80 ∧
    check_image_size hotReloadState pay80 = .ok () ∧
    hotReloadState.image_cache.set "http://a" pay80 = .error () ∧
    (get_image_by_url 0 respPay80 hotReloadState "http://a" (some ⟨1⟩)).result
      = .error .imageTooBig ∧
    (get_image_by_url 0 respPay80 hotReloadState "http://a" (some ⟨1⟩)).trace.charge_outcomes
      = [] := by
  decide

/-- Claim C3, amended: a QUOTA-CHARGE failure is indeed never surfaced —
when the cache insert succeeds, `get_image_by_url` returns the fetched
payload and merely records the discarded `add_usage` outcome — but a
CACHE-INSERT failure IS surfaced as ImageTooBig and skips the quota
charge. -/
theorem C3_charge_failure_swallowed (now : Nat) (resp : HttpResponse) (s : ServiceState)
    (url : String) (user : UserCompact) (image_bytes : List Nat)
    (hmiss : s.image_cache.get url = none)
    (hpre : check_user_quota s user = .ok ())
    (hfetch : get_image_from_url_as_bytes resp = .ok image_bytes)
    (hsize : check_image_size s image_bytes = .ok ()) :
    (∀ s1, update_image_cache s url image_bytes = .ok s1 →
      (get_image_by_url now resp s url (some user)).result = .ok image_bytes ∧
      (get_image_by_url now resp s url (some user)).trace.charge_outcomes
        = [(update_user_quota now s1 user image_bytes.length).2]) ∧
    (update_image_cache s url image_bytes = .error .imageTooBig →
      (get_image_by_url now resp s url (some user)).result = .error .imageTooBig ∧
      (get_image_by_url now resp s url (some user)).trace.charge_outcomes = []) := by
  constructor
  · intro s1 hins
    simp [get_image_by_url, hmiss, hpre, hfetch, hsize, hins]
  · intro hins
    simp [get_image_by_url, hmiss, hpre, hfetch, hsize, hins]

/-- Claim C3, witness: on a successful insert the payload is returned and
the charge outcome is only recorded in the trace. -/
theorem C3_charge_failure_swallowed_witness :
    (get_image_by_url 0 respPay80 okState "http://a" (some ⟨1⟩)).result = .ok pay80 ∧
    (get_image_by_url 0 respPay80 okState "http://a" (some ⟨1⟩)).trace.charge_outcomes
      = [(update_user_quota 0 insertedState ⟨1⟩ pay80.length).2] :=
  (C3_charge_failure_swallowed 0 respPay80 okState "http://a" ⟨1⟩ pay80
    (by decide) (by decide) (by decide) (by decide)).1 insertedState (by decide)

set_option maxRecDepth 100000 in
/-- Claim C2, counterexample: in the exact scenario (quota 1000 B per
3600 s, three distinct 400-byte cache-miss fetches in one window), the
THIRD charge does not fail: `add_usage` only rejects when usage is already
at the budget BEFORE adding, so at usage 800 < 1000 the 400-byte charge is
accepted and usage becomes 1200. -/
theorem C2_third_charge_succeeds_cex :
    thirdFetch.trace.charge_outcomes = [.ok ()] ∧
    thirdFetch.trace.charge_outcomes ≠ [.error ()] ∧
    quotasGet thirdFetch.state.user_quotas 1 = some ⟨1, 1200, 1000, 0, 3600⟩ := by
  decide

set_option maxRecDepth 100000 in
/-- Claim C2, amended: with quota 1000 B per 3600 s and three distinct
400-byte cache-miss fetches within the window, the 1st and 2nd charges
succeed (usage 400, then 800) — and the 3rd charge ALSO succeeds, leaving
usage 1200 (the `reached` check precedes the addition, allowing
overshoot); all three calls, the third included, return the fetched
payload to the caller. -/
theorem C2_three_fetch_scenario :
    firstFetch.result = .ok pay400 ∧
    quotasGet firstFetch.state.user_quotas 1 = some ⟨1, 400, 1000, 0, 3600⟩ ∧
    secondFetch.result = .ok pay400 ∧
    quotasGet secondFetch.state.user_quotas 1 = some ⟨1, 800, 1000, 0, 3600⟩ ∧
    thirdFetch.result = .ok pay400 ∧
    thirdFetch.trace.charge_outcomes = [.ok ()] ∧
    quotasGet thirdFetch.state.user_quotas 1 = some ⟨1, 1200, 1000, 0, 3600⟩ := by
  decide

/-- A successful cache insert changes only the `image_cache` field of the
service state. -/
theorem update_image_cache_changes_only_cache (s : ServiceState) (url : String)
    (image_bytes : List Nat) (s1 : ServiceState)
    (h : update_image_cache s url image_bytes = .ok s1) :
    s1.user_quotas = s.user_quotas ∧ s1.settings = s.settings := by
  unfold update_image_cache at h
  cases hs : s.image_cache.set url image_bytes with
  | ok c =>
    rw [hs] at h
    injection h with h2
    subst h2
    exact ⟨rfl, rfl⟩
  | error e =>
    rw [hs] at h
    cases h

/-- If a quota's usage is strictly below its budget, `add_usage` succeeds
(whether or not the window resets first). -/
theorem add_usage_ok_of_below (now : Nat) (q : ImageCacheQuota) (amount : Nat)
    (h : q.usage < q.max_usage) :
    (q.add_usage now amount).1 = .ok () := by
  unfold ImageCacheQuota.add_usage
  by_cases hreset : now - q.date_start_secs > q.period_secs
  · simp only [hreset, if_true]
    have hnr : ¬ (q.reset now).is_reached := by
      simp only [ImageCacheQuota.is_reached, ImageCacheQuota.reset, ge_iff_le,
        decide_eq_true_eq, Nat.le_zero]
      omega
    simp [hnr]
  · simp only [hreset, if_false]
    have hnr : ¬ q.is_reached := by
      simp only [ImageCacheQuota.is_reached, ge_iff_le, decide_eq_true_eq]
      omega
    simp [hnr]

/-- After a passed pre-check, and with an existing quota record or a
positive configured budget, the discarded `add_usage` outcome inside
`update_user_quota` is `Ok`. -/
theorem update_user_quota_charge_ok (now : Nat) (s : ServiceState) (user : UserCompact)
    (amount : Nat)
    (hpre : check_user_quota s user = .ok ())
    (hpos : quotasGet s.user_quotas user.user_id ≠ none ∨
      0 < s.settings.user_quota_bytes) :
    (update_user_quota now s user amount).2 = .ok () := by
  unfold update_user_quota
  cases hq : quotasGet s.user_quotas user.user_id with
  | none =>
    rcases hpos with h | h
    · exact absurd hq h
    · simp only [hq, Option.getD_none]
      exact add_usage_ok_of_below now _ amount (by simpa [ImageCacheQuota.new] using h)
  | some q =>
    have husage : q.usage < q.max_usage := by
      unfold check_user_quota at hpre
      rw [hq] at hpre
      by_cases hr : q.is_reached
      · simp [hr] at hpre
      · simp only [ImageCacheQuota.is_reached, ge_iff_le, decide_eq_true_eq] at hr
        omega
    simp only [hq, Option.getD_some]
    exact add_usage_ok_of_below now q amount husage

/-- Claim C10, counterexample: with the user quota budget hot-configured
to ZERO bytes and a first-time user, the call passes the pre-check (no
quota record exists), reaches the charge step, and the discarded
`add_usage` result is `Err` — the fresh quota has `usage 0 ≥ max_usage 0`
— while the payload is still returned; so the charge's rejected branch IS
reachable in a single-request run. -/
theorem C10_zero_budget_cex :
    check_user_quota zeroQuotaState ⟨1⟩ = .ok () ∧
    (get_image_by_url 0 respPay80 zeroQuotaState "http://a" (some ⟨1⟩)).result
      = .ok pay80 ∧
    (get_image_by_url 0 respPay80 zeroQuotaState "http://a" (some ⟨1⟩)).trace.charge_outcomes
      = [.error ()] := by
  decide

/-- Claim C10, amended: under sequential execution, whenever
`get_image_by_url` reaches the quota-charge step, the discarded
`add_usage` result is `Ok` PROVIDED the caller already has a quota record
(then the pre-check guarantees usage < max_usage, and a window reset only
lowers usage to 0 < max_usage) or the configured `user_quota_bytes` is
positive (covering the lazily created fresh quota); with a zero budget and
no record the rejected branch is reachable. -/
theorem C10_charge_ok_in_sequential_run (now : Nat) (resp : HttpResponse)
    (s : ServiceState) (url : String) (user : UserCompact) (image_bytes : List Nat)
    (s1 : ServiceState)
    (hmiss : s.image_cache.get url = none)
    (hpre : check_user_quota s user = .ok ())
    (hfetch : get_image_from_url_as_bytes resp = .ok image_bytes)
    (hsize : check_image_size s image_bytes = .ok ())
    (hins : update_image_cache s url image_bytes = .ok s1)
    (hpos : quotasGet s.user_quotas user.user_id ≠ none ∨
      0 < s.settings.user_quota_bytes) :
    (get_image_by_url now resp s url (some user)).trace.charge_outcomes = [.ok ()] := by
  obtain ⟨hquotas, hsettings⟩ :=
    update_image_cache_changes_only_cache s url image_bytes s1 hins
  have hpre1 : check_user_quota s1 user = .ok () := by
    unfold check_user_quota at hpre ⊢
    rw [hquotas]
    exact hpre
  have hpos1 : quotasGet s1.user_quotas user.user_id ≠ none ∨
      0 < s1.settings.user_quota_bytes := by
    rw [hquotas, hsettings]
    exact hpos
  simp [get_image_by_url, hmiss, hpre, hfetch, hsize, hins,
    update_user_quota_charge_ok now s1 user image_bytes.length hpre1 hpos1]

/-- Claim C10, witness: a first-time user with the normal 1000-byte budget
gets a silently successful 80-byte charge. -/
theorem C10_charge_ok_in_sequential_run_witness :
    (get_image_by_url 0 respPay80 okState "http://a" (some ⟨1⟩)).trace.charge_outcomes
      = [.ok ()] :=
  C10_charge_ok_in_sequential_run 0 respPay80 okState "http://a" ⟨1⟩ pay80
    insertedState (by decide) (by decide) (by decide) (by decide) (by decide)
    (Or.inr (by decide))

end TorrustImageCache
